import Mathlib

/-!
Verification development for the expo-media3-transformer module.

The definitions below are a shallow embedding of the request compiler,
the asynchronous execution bridge and the result translator found in
`android/.../Media3TransformerModule.kt`, together with the TypeScript
wrapper in `src/index.ts`.  Kotlin nullable fields become `Option`,
Kotlin exceptions become `Except String` where the string is the
argument name carried by `MissingArgumentException`, and the
`suspendCancellableCoroutine` block becomes an explicit state machine
over adapter states and engine-listener events.

Kotlin `Float` and `Long` values are only stored and forwarded by this
module, never computed with (the single exception being `Long.toInt()`
in the result translation, modelled explicitly below), so their
carriers are modelled as `Int`.
-/

namespace Media3

/-- Carrier for Kotlin `Float` fields; the module only forwards these values. -/
abbrev KFloat := Int

/-- Carrier for Kotlin `Long` fields. -/
abbrev KLong := Int

/-- Kotlin `Long.toInt()`: twos-complement truncation to 32 bits. -/
def longToInt (x : KLong) : Int :=
  (x + 2 ^ 31) % 2 ^ 32 - 2 ^ 31

/-- Models `VideoEffectType` from Media3TransformerModule.kt. -/
inductive VideoEffectType where
  | presentationForAspectRatio
  | presentationForWidthAndHeight
  | presentationForHeight
  | frameDropEffect
  | scaleAndRotateTransformation
deriving DecidableEq, Repr

/-- Models `AudioProcessorType` from Media3TransformerModule.kt. -/
inductive AudioProcessorType where
  | channelMixingAudioProcessor
deriving DecidableEq, Repr

/-- Models the `ClippingConfigurationOptions` record (all fields nullable). -/
structure ClippingConfigurationOptions where
  startPositionMs : Option KLong
  endPositionMs : Option KLong
deriving DecidableEq, Repr

/-- Models the `VideoEffectOptions` record (all fields nullable). -/
structure VideoEffectOptions where
  type : Option VideoEffectType
  aspectRatio : Option KFloat
  layout : Option Int
  width : Option Int
  height : Option Int
  targetFrameRate : Option KFloat
  scaleX : Option KFloat
  scaleY : Option KFloat
  rotationDegrees : Option KFloat
deriving DecidableEq, Repr

/-- Models the `ChannelMixingMatrixOptions` record. -/
structure ChannelMixingMatrixOptions where
  inputChannelCount : Option Int
  outputChannelCount : Option Int
deriving DecidableEq, Repr

/-- Models the `AudioProcessorOptions` record. -/
structure AudioProcessorOptions where
  type : Option AudioProcessorType
  channelMixingMatrices : Option (List ChannelMixingMatrixOptions)
deriving DecidableEq, Repr

/-- Models the `MediaItemOptions` record. -/
structure MediaItemOptions where
  uri : Option String
  clippingConfiguration : Option ClippingConfigurationOptions
  videoEffects : Option (List VideoEffectOptions)
  audioProcessors : Option (List AudioProcessorOptions)
deriving DecidableEq, Repr

/-- Models the `VideoEncoderSettingsOptions` record. -/
structure VideoEncoderSettingsOptions where
  bitrate : Option Int
deriving DecidableEq, Repr

/-- Models the `EncoderFactoryOptions` record. -/
structure EncoderFactoryOptions where
  requestedVideoEncoderSettings : Option VideoEncoderSettingsOptions
deriving DecidableEq, Repr

/-- Models the `TransformOptions` record. -/
structure TransformOptions where
  mediaItem : Option MediaItemOptions
  outputPath : Option String
  videoMimeType : Option String
  audioMimeType : Option String
  encoderFactory : Option EncoderFactoryOptions
deriving DecidableEq, Repr

/-- Kotlin `value ?: throw MissingArgumentException(name)`: the error carries
the argument name passed to `MissingArgumentException`. -/
def orThrow {α : Type} (v : Option α) (argumentName : String) : Except String α :=
  match v with
  | some x => Except.ok x
  | none => Except.error argumentName

/-- Compiled engine-side clipping configuration.  The engine builder starts
with no field set, and `setStartPositionMs` / `setEndPositionMs` set one
field each, so the compiled object records which fields were set. -/
structure ClippingConfiguration where
  startPositionMs : Option KLong
  endPositionMs : Option KLong
deriving DecidableEq, Repr

/-- `MediaItem.ClippingConfiguration.Builder()`: nothing set yet. -/
def ClippingConfiguration.builder : ClippingConfiguration :=
  { startPositionMs := none, endPositionMs := none }

/-- Engine `setStartPositionMs`. -/
def ClippingConfiguration.setStartPositionMs (c : ClippingConfiguration) (v : KLong) :
    ClippingConfiguration :=
  { c with startPositionMs := some v }

/-- Engine `setEndPositionMs`. -/
def ClippingConfiguration.setEndPositionMs (c : ClippingConfiguration) (v : KLong) :
    ClippingConfiguration :=
  { c with endPositionMs := some v }

/-- Compiled engine-side media item. -/
structure MediaItem where
  uri : String
  clippingConfiguration : Option ClippingConfiguration
deriving DecidableEq, Repr

/-- Compiled engine-side video effect, one constructor per engine factory used
by `toEffect` (Presentation.createForAspectRatio, createForWidthAndHeight,
createForHeight, FrameDropEffect.createDefaultFrameDropEffect and
ScaleAndRotateTransformation.Builder). -/
inductive Effect where
  | presentationForAspectRatio (aspectRatio : KFloat) (layout : Int)
  | presentationForWidthAndHeight (width height layout : Int)
  | presentationForHeight (height : Int)
  | frameDropEffect (targetFrameRate : KFloat)
  | scaleAndRotateTransformation (scaleX scaleY rotationDegrees : KFloat)
deriving DecidableEq, Repr

/-- Compiled engine-side channel-mixing matrix (`ChannelMixingMatrix.create`). -/
structure ChannelMixingMatrix where
  inputChannelCount : Int
  outputChannelCount : Int
deriving DecidableEq, Repr

/-- Compiled engine-side audio processor.  A `ChannelMixingAudioProcessor`
records the sequence of matrices passed to `putChannelMixingMatrix`, in
call order. -/
inductive AudioProcessor where
  | channelMixingAudioProcessor (receivedMatrices : List ChannelMixingMatrix)
deriving DecidableEq, Repr

/-- Compiled engine-side `Effects(audioProcessors, videoEffects)`. -/
structure Effects where
  audioProcessors : List AudioProcessor
  videoEffects : List Effect
deriving DecidableEq, Repr

/-- Compiled engine-side edited media item. -/
structure EditedMediaItem where
  mediaItem : MediaItem
  effects : Effects
deriving DecidableEq, Repr

/-- Compiled engine-side video encoder settings. -/
structure VideoEncoderSettings where
  bitrate : Option Int
deriving DecidableEq, Repr

/-- Compiled engine-side encoder factory. -/
structure DefaultEncoderFactory where
  requestedVideoEncoderSettings : Option VideoEncoderSettings
deriving DecidableEq, Repr

/-- Compiled engine-side transformer configuration (`Transformer.Builder`
with the optional overrides applied). -/
structure Transformer where
  videoMimeType : Option String
  audioMimeType : Option String
  encoderFactory : Option DefaultEncoderFactory
deriving DecidableEq, Repr

/-- `MediaItemOptions.toMediaItem`: requires `uri`, then attaches the
clipping configuration when present. -/
def ClippingConfigurationOptions.toClippingConfiguration
    (o : ClippingConfigurationOptions) : ClippingConfiguration :=
  let b := ClippingConfiguration.builder
  let b := match o.startPositionMs with
    | some v => b.setStartPositionMs v
    | none => b
  let b := match o.endPositionMs with
    | some v => b.setEndPositionMs v
    | none => b
  b

/-- `MediaItemOptions.toMediaItem` from Media3TransformerModule.kt. -/
def MediaItemOptions.toMediaItem (o : MediaItemOptions) : Except String MediaItem := do
  let uriValue ← orThrow o.uri "mediaItem.uri"
  Except.ok
    { uri := uriValue
      clippingConfiguration :=
        o.clippingConfiguration.map ClippingConfigurationOptions.toClippingConfiguration }

/-- `VideoEffectOptions.toEffect` from Media3TransformerModule.kt: selects the
constructor by the `type` tag and requires the fields of that variant, in source
order, throwing `MissingArgumentException` for the first absent one. -/
def VideoEffectOptions.toEffect (o : VideoEffectOptions) : Except String Effect := do
  let effectType ← orThrow o.type "videoEffects.type"
  match effectType with
  | VideoEffectType.presentationForAspectRatio => do
      let aspectRatioValue ← orThrow o.aspectRatio "videoEffects.aspectRatio"
      let layoutValue ← orThrow o.layout "videoEffects.layout"
      Except.ok (Effect.presentationForAspectRatio aspectRatioValue layoutValue)
  | VideoEffectType.presentationForWidthAndHeight => do
      let widthValue ← orThrow o.width "videoEffects.width"
      let heightValue ← orThrow o.height "videoEffects.height"
      let layoutValue ← orThrow o.layout "videoEffects.layout"
      Except.ok (Effect.presentationForWidthAndHeight widthValue heightValue layoutValue)
  | VideoEffectType.presentationForHeight => do
      let heightValue ← orThrow o.height "videoEffects.height"
      Except.ok (Effect.presentationForHeight heightValue)
  | VideoEffectType.frameDropEffect => do
      let frameRate ← orThrow o.targetFrameRate "videoEffects.targetFrameRate"
      Except.ok (Effect.frameDropEffect frameRate)
  | VideoEffectType.scaleAndRotateTransformation => do
      let scaleXValue ← orThrow o.scaleX "videoEffects.scaleX"
      let scaleYValue ← orThrow o.scaleY "videoEffects.scaleY"
      let rotationValue ← orThrow o.rotationDegrees "videoEffects.rotationDegrees"
      Except.ok (Effect.scaleAndRotateTransformation scaleXValue scaleYValue rotationValue)

/-- Kotlin `forEach` over `channelMixingMatrices`, threading the mutable
processor state: each complete matrix is handed to `putChannelMixingMatrix`
(recorded in call order), an incomplete matrix throws. -/
def putMatrices (received : List ChannelMixingMatrix) :
    List ChannelMixingMatrixOptions → Except String (List ChannelMixingMatrix)
  | [] => Except.ok received
  | m :: rest => do
      let inputChannels ←
        orThrow m.inputChannelCount "audioProcessors.channelMixingMatrices.inputChannelCount"
      let outputChannels ←
        orThrow m.outputChannelCount "audioProcessors.channelMixingMatrices.outputChannelCount"
      putMatrices
        (received ++ [{ inputChannelCount := inputChannels, outputChannelCount := outputChannels }])
        rest

/-- `AudioProcessorOptions.toAudioProcessor` from Media3TransformerModule.kt. -/
def AudioProcessorOptions.toAudioProcessor (o : AudioProcessorOptions) :
    Except String AudioProcessor := do
  let processorType ← orThrow o.type "audioProcessors.type"
  match processorType with
  | AudioProcessorType.channelMixingAudioProcessor => do
      let received ← match o.channelMixingMatrices with
        | some ms => putMatrices [] ms
        | none => Except.ok []
      Except.ok (AudioProcessor.channelMixingAudioProcessor received)

/-- Kotlin `List.map` with a throwing body: left-to-right, stopping at the
first thrown `MissingArgumentException`. -/
def mapOrThrow {α β : Type} (f : α → Except String β) : List α → Except String (List β)
  | [] => Except.ok []
  | x :: xs => do
      let y ← f x
      let ys ← mapOrThrow f xs
      Except.ok (y :: ys)

/-- `MediaItemOptions.toEditedMediaItem` from Media3TransformerModule.kt:
a null effect or processor list compiles to an empty chain. -/
def MediaItemOptions.toEditedMediaItem (o : MediaItemOptions) (mediaItem : MediaItem) :
    Except String EditedMediaItem := do
  let effectList ← match o.videoEffects with
    | some l => mapOrThrow VideoEffectOptions.toEffect l
    | none => Except.ok []
  let audioProcessorList ← match o.audioProcessors with
    | some l => mapOrThrow AudioProcessorOptions.toAudioProcessor l
    | none => Except.ok []
  Except.ok
    { mediaItem := mediaItem
      effects := { audioProcessors := audioProcessorList, videoEffects := effectList } }

/-- `VideoEncoderSettingsOptions.toVideoEncoderSettings`. -/
def VideoEncoderSettingsOptions.toVideoEncoderSettings (o : VideoEncoderSettingsOptions) :
    VideoEncoderSettings :=
  { bitrate := o.bitrate }

/-- `EncoderFactoryOptions.toEncoderFactory`. -/
def EncoderFactoryOptions.toEncoderFactory (o : EncoderFactoryOptions) :
    DefaultEncoderFactory :=
  { requestedVideoEncoderSettings :=
      o.requestedVideoEncoderSettings.map VideoEncoderSettingsOptions.toVideoEncoderSettings }

/-- `TransformOptions.toTransformer`: applies the optional overrides onto the
transformer builder. -/
def TransformOptions.toTransformer (o : TransformOptions) : Transformer :=
  { videoMimeType := o.videoMimeType
    audioMimeType := o.audioMimeType
    encoderFactory := o.encoderFactory.map EncoderFactoryOptions.toEncoderFactory }

/-- The compiled object graph handed to the engine by `executeTransform`. -/
structure EnginePlan where
  editedMediaItem : EditedMediaItem
  transformer : Transformer
  outputPath : String
deriving DecidableEq, Repr

/-- The synchronous validation-and-compilation prefix of `executeTransform`,
in source order: `options.mediaItem` presence, `options.outputPath`
presence, `toMediaItem` (which requires `uri`), `toEditedMediaItem`
(which compiles the effect list and then the audio-processor list),
then `toTransformer`. -/
def compileTransform (options : TransformOptions) : Except String EnginePlan := do
  let mediaItemOptions ← orThrow options.mediaItem "mediaItem"
  let outputPath ← orThrow options.outputPath "outputPath"
  let mediaItem ← mediaItemOptions.toMediaItem
  let editedMediaItem ← mediaItemOptions.toEditedMediaItem mediaItem
  let transformer := options.toTransformer
  Except.ok
    { editedMediaItem := editedMediaItem, transformer := transformer, outputPath := outputPath }

/-- Calls `executeTransform` makes on the engine. -/
inductive EngineCall where
  | start (item : EditedMediaItem) (outputPath : String)
  | cancel
deriving DecidableEq, Repr

/-- `executeTransform` up to and including `transformer.start`: every
`MissingArgumentException` in the body is thrown textually before
`transformer.start(editedMediaItem, outputPath)`, so on a compilation
error no engine call is made, and on success exactly one start call is
made with the compiled plan. -/
def executeTransformRun (options : TransformOptions) :
    List EngineCall × Except String EnginePlan :=
  match compileTransform options with
  | Except.error e => ([], Except.error e)
  | Except.ok plan => ([EngineCall.start plan.editedMediaItem plan.outputPath], Except.ok plan)

/-- Kotlin `ExportResult` as used by `toMap`: `durationMs` and
`fileSizeBytes` are `Long`, the remaining numeric fields are `Int`, the
encoder names are nullable strings. -/
structure ExportResult where
  averageAudioBitrate : Int
  averageVideoBitrate : Int
  durationMs : KLong
  fileSizeBytes : KLong
  videoFrameCount : Int
  channelCount : Int
  sampleRate : Int
  height : Int
  width : Int
  audioEncoderName : Option String
  videoEncoderName : Option String
deriving DecidableEq, Repr

/-- Values stored in the `Map<String, Any?>` produced by `toMap`. -/
inductive ExportValue where
  | int (v : Int)
  | str (v : Option String)
deriving DecidableEq, Repr

/-- `ExportResult.toMap` from Media3TransformerModule.kt, as the ordered
association list built by `mapOf`. -/
def ExportResult.toMap (r : ExportResult) : List (String × ExportValue) :=
  [("averageAudioBitrate", ExportValue.int r.averageAudioBitrate),
   ("averageVideoBitrate", ExportValue.int r.averageVideoBitrate),
   ("durationMs", ExportValue.int (longToInt r.durationMs)),
   ("fileSizeBytes", ExportValue.int (longToInt r.fileSizeBytes)),
   ("videoFrameCount", ExportValue.int r.videoFrameCount),
   ("channelCount", ExportValue.int r.channelCount),
   ("sampleRate", ExportValue.int r.sampleRate),
   ("height", ExportValue.int r.height),
   ("width", ExportValue.int r.width),
   ("audioEncoderName", ExportValue.str r.audioEncoderName),
   ("videoEncoderName", ExportValue.str r.videoEncoderName)]

/-- Terminal outcome of one `executeTransform` invocation. -/
inductive Outcome where
  | success (result : List (String × ExportValue))
  | failure (message : String)
  | cancelled
deriving DecidableEq, Repr

/-- State of the suspended continuation in `executeTransform`: the resolved
outcome, if any, and how many times `transformer.cancel()` has run. -/
structure AdapterState where
  outcome : Option Outcome
  cancelCalls : Nat
deriving DecidableEq, Repr

/-- Events that can reach the adapter after `transformer.start`: the two
one-shot listener callbacks and an external cancellation request. -/
inductive AdapterEvent where
  | onCompleted (exportResult : ExportResult)
  | onError (exportResult : ExportResult) (message : String)
  | cancelRequest
deriving DecidableEq, Repr

/-- One adapter transition, translated from the `suspendCancellableCoroutine`
block: a resumed or cancelled continuation ignores every later event
(resuming a completed `CancellableContinuation` is a no-op, and its
`invokeOnCancellation` handler runs at most once); before resolution,
`onCompleted` resumes with `exportResult.toMap()`, `onError` resumes with
the exception, and a cancellation request runs the `invokeOnCancellation`
handler, which calls `transformer.cancel()`, and settles the outcome as
cancelled. -/
def adapterStep (s : AdapterState) (e : AdapterEvent) : AdapterState :=
  match s.outcome with
  | some _ => s
  | none =>
      match e with
      | AdapterEvent.onCompleted r =>
          { s with outcome := some (Outcome.success r.toMap) }
      | AdapterEvent.onError _ msg =>
          { s with outcome := some (Outcome.failure msg) }
      | AdapterEvent.cancelRequest =>
          { outcome := some Outcome.cancelled, cancelCalls := s.cancelCalls + 1 }

/-- Adapter state right after `transformer.start`: nothing resolved. -/
def adapterInit : AdapterState :=
  { outcome := none, cancelCalls := 0 }

/-- Runs a sequence of post-start events through the adapter. -/
def adapterRun (events : List AdapterEvent) : AdapterState :=
  events.foldl adapterStep adapterInit

end Media3

namespace TS

/-- TypeScript `ClippingConfiguration` (both fields optional). -/
structure ClippingConfiguration where
  startPositionMs : Option Int
  endPositionMs : Option Int
deriving DecidableEq, Repr

/-- TypeScript `VideoEffect` tagged union from Media3Transformer.types.ts. -/
inductive VideoEffect where
  | presentationForAspectRatio (aspectRatio : Int) (layout : Int)
  | presentationForWidthAndHeight (width height layout : Int)
  | presentationForHeight (height : Int)
  | frameDropEffect (targetFrameRate : Int)
  | scaleAndRotateTransformation (scaleX scaleY rotationDegrees : Int)
deriving DecidableEq, Repr

/-- TypeScript `ChannelMixingMatrix`. -/
structure ChannelMixingMatrix where
  inputChannelCount : Int
  outputChannelCount : Int
deriving DecidableEq, Repr

/-- TypeScript `ChannelMixingAudioProcessor` (the only `AudioProcessor`). -/
structure AudioProcessor where
  channelMixingMatrices : List ChannelMixingMatrix
deriving DecidableEq, Repr

/-- TypeScript `EditedMediaItem`. -/
structure EditedMediaItem where
  uri : String
  clippingConfiguration : Option ClippingConfiguration
  videoEffects : Option (List VideoEffect)
  audioProcessors : Option (List AudioProcessor)
deriving DecidableEq, Repr

/-- TypeScript `RequestedVideoEncoderSettings`. -/
structure RequestedVideoEncoderSettings where
  bitrate : Option Int
deriving DecidableEq, Repr

/-- TypeScript `EncoderFactory`. -/
structure EncoderFactory where
  requestedVideoEncoderSettings : Option RequestedVideoEncoderSettings
deriving DecidableEq, Repr

/-- TypeScript `TransformerOptions`. -/
structure TransformerOptions where
  mediaItem : EditedMediaItem
  outputPath : String
  videoMimeType : Option String
  audioMimeType : Option String
  encoderFactory : Option EncoderFactory
deriving DecidableEq, Repr

/-- Models `stripOutputPathUriPrefix` from src/index.ts, which is
`path.replace(/^file:\/\//, "")`: the regex is anchored at the start and
`replace` without the global flag replaces at most one match, so exactly
one leading `file://` occurrence is removed when present. -/
def stripOutputPathUriScheme (path : String) : String :=
  if List.isPrefixOf "file://".data path.data then
    String.mk (path.data.drop 7)
  else
    path

/-- Models `transform` from src/index.ts: the value forwarded to the native
module is the input options with only `outputPath` sanitized. -/
def transform (options : TransformerOptions) : TransformerOptions :=
  { options with outputPath := stripOutputPathUriScheme options.outputPath }

end TS

namespace Media3

/-- A video-effect options record with every field absent. -/
def blankVideoEffect : VideoEffectOptions :=
  { type := none, aspectRatio := none, layout := none, width := none, height := none,
    targetFrameRate := none, scaleX := none, scaleY := none, rotationDegrees := none }

/-- Matrix options lists in which every matrix has both fields present. -/
def completeMatrices (pairs : List (Int × Int)) : List ChannelMixingMatrixOptions :=
  pairs.map fun pr => { inputChannelCount := some pr.1, outputChannelCount := some pr.2 }

/-- Media-item options with no clipping configuration. -/
def mkMediaItemOptions (uri : Option String) (ve : Option (List VideoEffectOptions))
    (ap : Option (List AudioProcessorOptions)) : MediaItemOptions :=
  { uri := uri, clippingConfiguration := none, videoEffects := ve, audioProcessors := ap }

/-- Transform options with no mime-type or encoder overrides. -/
def mkOptions (mi : Option MediaItemOptions) (out : Option String) : TransformOptions :=
  { mediaItem := mi, outputPath := out, videoMimeType := none, audioMimeType := none,
    encoderFactory := none }

/-- The clipping range of the spec example: startPositionMs 1000, endPositionMs 6000. -/
def clipDemoRange : ClippingConfigurationOptions :=
  { startPositionMs := some 1000, endPositionMs := some 6000 }

/-- A media-item request carrying only a uri and the demo clipping range. -/
def clipDemoMediaItemOptions : MediaItemOptions :=
  { uri := some "in.mp4", clippingConfiguration := some clipDemoRange,
    videoEffects := none, audioProcessors := none }

/-- The compiled media item expected for `clipDemoMediaItemOptions`. -/
def clipDemoMediaItem : MediaItem :=
  { uri := "in.mp4",
    clippingConfiguration := some { startPositionMs := some 1000, endPositionMs := some 6000 } }

/-- A compiled media item with no clipping configuration. -/
def demoMediaItem : MediaItem :=
  { uri := "in.mp4", clippingConfiguration := none }

/-- The compiled edited media item with both chains empty. -/
def demoEmptyEdited : EditedMediaItem :=
  { mediaItem := demoMediaItem, effects := { audioProcessors := [], videoEffects := [] } }

/-- Aspect-ratio presentation with its first required field absent. -/
def eAR0 : VideoEffectOptions :=
  { blankVideoEffect with type := some VideoEffectType.presentationForAspectRatio }

/-- Aspect-ratio presentation missing only `layout`. -/
def eAR1 : VideoEffectOptions :=
  { eAR0 with aspectRatio := some 1 }

/-- Width-and-height presentation with its first required field absent. -/
def eWH0 : VideoEffectOptions :=
  { blankVideoEffect with type := some VideoEffectType.presentationForWidthAndHeight }

/-- Width-and-height presentation missing `height` and `layout`. -/
def eWH1 : VideoEffectOptions :=
  { eWH0 with width := some 640 }

/-- Width-and-height presentation missing only `layout`. -/
def eWH2 : VideoEffectOptions :=
  { eWH1 with height := some 360 }

/-- Height presentation missing `height`. -/
def eH0 : VideoEffectOptions :=
  { blankVideoEffect with type := some VideoEffectType.presentationForHeight }

/-- Frame-drop effect missing `targetFrameRate`. -/
def eFD0 : VideoEffectOptions :=
  { blankVideoEffect with type := some VideoEffectType.frameDropEffect }

/-- Scale-and-rotate missing `scaleX`. -/
def eSR0 : VideoEffectOptions :=
  { blankVideoEffect with type := some VideoEffectType.scaleAndRotateTransformation }

/-- Scale-and-rotate missing `scaleY` and `rotationDegrees`. -/
def eSR1 : VideoEffectOptions :=
  { eSR0 with scaleX := some 1 }

/-- Scale-and-rotate missing only `rotationDegrees`. -/
def eSR2 : VideoEffectOptions :=
  { eSR1 with scaleY := some 1 }

/-- A fully specified scale-and-rotate effect. -/
def demoScaleEffect : VideoEffectOptions :=
  { blankVideoEffect with type := some VideoEffectType.scaleAndRotateTransformation,
                          scaleX := some 1, scaleY := some 2, rotationDegrees := some 90 }

/-- A fully specified channel-mixing processor with the two matrices used in the spec. -/
def demoMixProcessor : AudioProcessorOptions :=
  { type := some AudioProcessorType.channelMixingAudioProcessor,
    channelMixingMatrices := some (completeMatrices [(1, 2), (2, 1)]) }

/-- A channel-mixing processor whose second matrix is missing its input count. -/
def pIn0 : AudioProcessorOptions :=
  { type := some AudioProcessorType.channelMixingAudioProcessor,
    channelMixingMatrices :=
      some (completeMatrices [(1, 2)] ++
        [{ inputChannelCount := none, outputChannelCount := some 2 }]) }

/-- A channel-mixing processor whose matrix is missing its output count. -/
def pOut0 : AudioProcessorOptions :=
  { type := some AudioProcessorType.channelMixingAudioProcessor,
    channelMixingMatrices :=
      some [{ inputChannelCount := some 2, outputChannelCount := none }] }

/-- A request with two complete effects followed by `eFD0` at index 2. -/
def demoBadFrameDropRequest : TransformOptions :=
  mkOptions
    (some (mkMediaItemOptions (some "in.mp4")
      (some [demoScaleEffect, demoScaleEffect, eFD0]) none))
    (some "out.mp4")

/-- A request with one complete effect and then `pIn0` at processor index 1. -/
def demoBadAudioRequest : TransformOptions :=
  mkOptions
    (some (mkMediaItemOptions (some "in.mp4") (some [demoScaleEffect])
      (some [demoMixProcessor, pIn0])))
    (some "out.mp4")

/-- A request with no effect lists and `pOut0` as its only processor. -/
def demoBadAudioRequestNoEffects : TransformOptions :=
  mkOptions
    (some (mkMediaItemOptions (some "in.mp4") none (some [pOut0])))
    (some "out.mp4")

/-- A request whose outputPath is present but the empty string. -/
def emptyPathRequest : TransformOptions :=
  mkOptions (some (mkMediaItemOptions (some "in.mp4") none none)) (some "")

/-- The plan compiled from `emptyPathRequest`. -/
def emptyPathPlan : EnginePlan :=
  { editedMediaItem := demoEmptyEdited,
    transformer := { videoMimeType := none, audioMimeType := none, encoderFactory := none },
    outputPath := "" }

/-- A request in which both `mediaItem.uri` and `outputPath` are absent. -/
def cexBothMissing : TransformOptions :=
  mkOptions (some (mkMediaItemOptions none none none)) none

/-- The compiled edited media item for the two-effect demo list. -/
def demoCompiledEdited : EditedMediaItem :=
  { mediaItem := demoMediaItem,
    effects := { audioProcessors := [],
                 videoEffects := [Effect.scaleAndRotateTransformation 1 2 90,
                                  Effect.scaleAndRotateTransformation 1 2 90] } }

/-- The media-item options compiled into `demoCompiledEdited`. -/
def demoEffectListMedia : MediaItemOptions :=
  mkMediaItemOptions (some "in.mp4") (some [demoScaleEffect, demoScaleEffect]) none

/-- Concrete TypeScript options used to exercise the wrapper. -/
def demoTSOptions : TS.TransformerOptions :=
  { mediaItem := { uri := "file:///in.mp4", clippingConfiguration := none,
                   videoEffects := none, audioProcessors := none },
    outputPath := "file:///out.mp4", videoMimeType := none, audioMimeType := none,
    encoderFactory := none }

theorem ok_bind {α β : Type} (a : α) (f : α → Except String β) :
    (Except.ok a >>= f) = f a := rfl

theorem error_bind {α β : Type} (e : String) (f : α → Except String β) :
    ((Except.error e : Except String α) >>= f) = Except.error e := rfl

theorem orThrow_some {α : Type} (x : α) (n : String) : orThrow (some x) n = Except.ok x := rfl

theorem orThrow_none {α : Type} (n : String) :
    orThrow (none : Option α) n = Except.error n := rfl

theorem mapOrThrow_ok_pointwise {α β : Type} (f : α → Except String β) :
    ∀ (xs : List α) (ys : List β), mapOrThrow f xs = Except.ok ys →
      ys.length = xs.length ∧
      ∀ i : Nat, Option.map f xs[i]? = Option.map Except.ok ys[i]? := by
  intro xs
  induction xs with
  | nil =>
      intro ys h
      simp only [mapOrThrow, Except.ok.injEq] at h
      subst h
      exact ⟨rfl, fun i => rfl⟩
  | cons x xs ih =>
      intro ys h
      simp only [mapOrThrow] at h
      cases hx : f x with
      | error e => rw [hx, error_bind] at h; cases h
      | ok y =>
          rw [hx, ok_bind] at h
          cases hrest : mapOrThrow f xs with
          | error e => rw [hrest, error_bind] at h; cases h
          | ok ys' =>
              rw [hrest, ok_bind] at h
              cases h
              obtain ⟨hlen, hpt⟩ := ih ys' hrest
              refine ⟨by simp [hlen], ?_⟩
              intro i
              cases i with
              | zero => simpa using hx
              | succ j => simpa using hpt j

theorem mapOrThrow_append_error {α β : Type} (f : α → Except String β) (e : String) :
    ∀ (pre : List α), (∀ a ∈ pre, ∃ b, f a = Except.ok b) →
      ∀ (x : α) (rest : List α), f x = Except.error e →
        mapOrThrow f (pre ++ x :: rest) = Except.error e := by
  intro pre
  induction pre with
  | nil =>
      intro _ x rest hx
      simp only [List.nil_append, mapOrThrow, hx, error_bind]
  | cons a as ih =>
      intro hok x rest hx
      obtain ⟨b, hb⟩ := hok a (List.mem_cons_self a as)
      have ih' := ih (fun a' ha' => hok a' (List.mem_cons_of_mem _ ha')) x rest hx
      simp only [List.cons_append, mapOrThrow, hb, ok_bind, List.append_eq,
        ih', error_bind]

theorem putMatrices_complete (pairs : List (Int × Int)) :
    ∀ received : List ChannelMixingMatrix,
      putMatrices received (completeMatrices pairs) =
        Except.ok (received ++ pairs.map fun pr =>
          { inputChannelCount := pr.1, outputChannelCount := pr.2 }) := by
  induction pairs with
  | nil => intro received; simp [completeMatrices, putMatrices]
  | cons p ps ih =>
      intro received
      simp only [completeMatrices, List.map_cons, putMatrices, orThrow_some, ok_bind] at ih ⊢
      rw [ih]
      simp

theorem putMatrices_input_error (mtx : ChannelMixingMatrixOptions)
    (rest : List ChannelMixingMatrixOptions) (hin : mtx.inputChannelCount = none) :
    ∀ (pairs : List (Int × Int)) (received : List ChannelMixingMatrix),
      putMatrices received (completeMatrices pairs ++ mtx :: rest) =
        Except.error "audioProcessors.channelMixingMatrices.inputChannelCount" := by
  intro pairs
  induction pairs with
  | nil =>
      intro received
      simp [completeMatrices, putMatrices, hin, orThrow_none, error_bind]
  | cons p ps ih =>
      intro received
      simp only [completeMatrices, List.map_cons, List.cons_append, putMatrices,
        orThrow_some, ok_bind]
      exact ih _

theorem putMatrices_output_error (mtx : ChannelMixingMatrixOptions) (i : Int)
    (rest : List ChannelMixingMatrixOptions) (hin : mtx.inputChannelCount = some i)
    (hout : mtx.outputChannelCount = none) :
    ∀ (pairs : List (Int × Int)) (received : List ChannelMixingMatrix),
      putMatrices received (completeMatrices pairs ++ mtx :: rest) =
        Except.error "audioProcessors.channelMixingMatrices.outputChannelCount" := by
  intro pairs
  induction pairs with
  | nil =>
      intro received
      simp [completeMatrices, putMatrices, hin, hout, orThrow_some, orThrow_none,
        ok_bind, error_bind]
  | cons p ps ih =>
      intro received
      simp only [completeMatrices, List.map_cons, List.cons_append, putMatrices,
        orThrow_some, ok_bind]
      exact ih _

theorem adapterStep_terminal (s : AdapterState) (o : Outcome) (h : s.outcome = some o)
    (e : AdapterEvent) : adapterStep s e = s := by
  simp [adapterStep, h]

theorem foldl_adapterStep_terminal (o : Outcome) :
    ∀ (events : List AdapterEvent) (s : AdapterState), s.outcome = some o →
      events.foldl adapterStep s = s := by
  intro events
  induction events with
  | nil => intro s _; rfl
  | cons e es ih =>
      intro s h
      rw [List.foldl_cons, adapterStep_terminal s o h e]
      exact ih s h

end Media3

namespace Media3

/-- Claim C3: a cancellation request made while the operation is still
running (before either listener callback) resolves the outcome as
cancelled and runs the engine cancel operation exactly once, no matter
what the engine does afterwards; a cancellation request arriving after
the success callback has resolved the outcome is a no-op and the
originally resolved outcome stands. -/
theorem cancel_semantics (rest : List AdapterEvent) (r : ExportResult) :
    (adapterRun (AdapterEvent.cancelRequest :: rest)).outcome = some Outcome.cancelled ∧
    (adapterRun (AdapterEvent.cancelRequest :: rest)).cancelCalls = 1 ∧
    adapterRun (AdapterEvent.onCompleted r :: AdapterEvent.cancelRequest :: rest) =
      { outcome := some (Outcome.success r.toMap), cancelCalls := 0 } := by
  have h1 : adapterRun (AdapterEvent.cancelRequest :: rest) =
      { outcome := some Outcome.cancelled, cancelCalls := 1 } := by
    rw [adapterRun, List.foldl_cons]
    exact foldl_adapterStep_terminal Outcome.cancelled rest _ rfl
  have h2 : adapterRun (AdapterEvent.onCompleted r :: AdapterEvent.cancelRequest :: rest) =
      { outcome := some (Outcome.success r.toMap), cancelCalls := 0 } := by
    rw [adapterRun, List.foldl_cons]
    exact foldl_adapterStep_terminal (Outcome.success r.toMap) _ _ rfl
  exact ⟨by rw [h1], by rw [h1], h2⟩

/-- Claim C7: the result translation is a pure field-by-field copy whose
map has exactly the eleven TransformResult keys, in which every entry is
the corresponding engine field, with the 64-bit durationMs and
fileSizeBytes coerced to 32-bit integers. -/
theorem toMap_exact_fields (r : ExportResult) :
    r.toMap.map Prod.fst =
      ["averageAudioBitrate", "averageVideoBitrate", "durationMs", "fileSizeBytes",
       "videoFrameCount", "channelCount", "sampleRate", "height", "width",
       "audioEncoderName", "videoEncoderName"] ∧
    r.toMap.lookup "averageAudioBitrate" = some (ExportValue.int r.averageAudioBitrate) ∧
    r.toMap.lookup "averageVideoBitrate" = some (ExportValue.int r.averageVideoBitrate) ∧
    r.toMap.lookup "durationMs" = some (ExportValue.int (longToInt r.durationMs)) ∧
    r.toMap.lookup "fileSizeBytes" = some (ExportValue.int (longToInt r.fileSizeBytes)) ∧
    r.toMap.lookup "videoFrameCount" = some (ExportValue.int r.videoFrameCount) ∧
    r.toMap.lookup "channelCount" = some (ExportValue.int r.channelCount) ∧
    r.toMap.lookup "sampleRate" = some (ExportValue.int r.sampleRate) ∧
    r.toMap.lookup "height" = some (ExportValue.int r.height) ∧
    r.toMap.lookup "width" = some (ExportValue.int r.width) ∧
    r.toMap.lookup "audioEncoderName" = some (ExportValue.str r.audioEncoderName) ∧
    r.toMap.lookup "videoEncoderName" = some (ExportValue.str r.videoEncoderName) := by
  refine ⟨rfl, ?_, ?_, ?_, ?_, ?_, ?_, ?_, ?_, ?_, ?_, ?_⟩ <;> rfl

/-- Claim C8: when a clipping range is given, the compiled clipping
sub-object has exactly the fields that were present in the request:
each of startPositionMs and endPositionMs is set iff it was supplied. -/
theorem clipping_fields_exact (c : ClippingConfigurationOptions) (m : MediaItemOptions)
    (item : MediaItem) (hc : m.clippingConfiguration = some c)
    (hm : m.toMediaItem = Except.ok item) :
    item.clippingConfiguration =
      some { startPositionMs := c.startPositionMs, endPositionMs := c.endPositionMs } := by
  cases hu : m.uri with
  | none => rw [MediaItemOptions.toMediaItem, hu] at hm; cases hm
  | some u =>
      rw [MediaItemOptions.toMediaItem, hu, orThrow_some, ok_bind] at hm
      cases hm
      rw [hc]
      cases hs : c.startPositionMs <;> cases he : c.endPositionMs <;>
        simp [ClippingConfigurationOptions.toClippingConfiguration,
          ClippingConfiguration.builder, ClippingConfiguration.setStartPositionMs,
          ClippingConfiguration.setEndPositionMs, hs, he]

/-- Claim C8 witness: the spec example, clippingRange 1000 / 6000. -/
theorem clipping_fields_exact_witness :
    clipDemoMediaItemOptions.clippingConfiguration = some clipDemoRange ∧
    clipDemoMediaItemOptions.toMediaItem = Except.ok clipDemoMediaItem ∧
    clipDemoMediaItem.clippingConfiguration =
      some { startPositionMs := some (1000 : Int), endPositionMs := some (6000 : Int) } :=
  ⟨rfl, rfl,
    clipping_fields_exact clipDemoRange clipDemoMediaItemOptions clipDemoMediaItem rfl rfl⟩

/-- Claim C9: omitting the videoEffects list or the audioProcessors list is
never an error: the omitted list compiles to an empty chain, and a media
item omitting both compiles successfully with both chains empty. -/
theorem omitted_lists_compile_empty (m : MediaItemOptions) (item : MediaItem)
    (ed : EditedMediaItem) :
    (m.videoEffects = none → m.audioProcessors = none →
      m.toEditedMediaItem item =
        Except.ok { mediaItem := item,
                    effects := { audioProcessors := [], videoEffects := [] } }) ∧
    (m.toEditedMediaItem item = Except.ok ed → m.videoEffects = none →
      ed.effects.videoEffects = []) ∧
    (m.toEditedMediaItem item = Except.ok ed → m.audioProcessors = none →
      ed.effects.audioProcessors = []) := by
  refine ⟨?_, ?_, ?_⟩
  · intro hv ha
    simp [MediaItemOptions.toEditedMediaItem, hv, ha, ok_bind]
  · intro hed hv
    rw [MediaItemOptions.toEditedMediaItem, hv] at hed
    cases ha : m.audioProcessors with
    | none => rw [ha] at hed; cases hed; rfl
    | some ps =>
        rw [ha] at hed
        cases hps : mapOrThrow AudioProcessorOptions.toAudioProcessor ps with
        | error e => simp only [ok_bind, hps, error_bind] at hed; cases hed
        | ok al => simp only [ok_bind, hps] at hed; cases hed; rfl
  · intro hed ha
    rw [MediaItemOptions.toEditedMediaItem, ha] at hed
    cases hv : m.videoEffects with
    | none => rw [hv] at hed; cases hed; rfl
    | some es =>
        rw [hv] at hed
        cases hes : mapOrThrow VideoEffectOptions.toEffect es with
        | error e => simp only [hes, error_bind] at hed; cases hed
        | ok el => simp only [hes, ok_bind] at hed; cases hed; rfl

/-- Claim C9 witness: a media item with uri only. -/
theorem omitted_lists_compile_empty_witness :
    (mkMediaItemOptions (some "in.mp4") none none).toEditedMediaItem demoMediaItem =
      Except.ok demoEmptyEdited :=
  (omitted_lists_compile_empty (mkMediaItemOptions (some "in.mp4") none none)
      demoMediaItem demoEmptyEdited).1 rfl rfl

end Media3

namespace Media3

theorem compileTransform_mediaItem_none (options : TransformOptions)
    (h : options.mediaItem = none) : compileTransform options = Except.error "mediaItem" := by
  simp [compileTransform, h, orThrow_none, error_bind]

theorem compileTransform_outputPath_none (options : TransformOptions) (m : MediaItemOptions)
    (hm : options.mediaItem = some m) (hp : options.outputPath = none) :
    compileTransform options = Except.error "outputPath" := by
  simp [compileTransform, hm, hp, orThrow_some, orThrow_none, ok_bind, error_bind]

theorem compileTransform_uri_none (options : TransformOptions) (m : MediaItemOptions)
    (p : String) (hm : options.mediaItem = some m) (hp : options.outputPath = some p)
    (hu : m.uri = none) : compileTransform options = Except.error "mediaItem.uri" := by
  simp [compileTransform, hm, hp, orThrow_some, orThrow_none, ok_bind, error_bind,
    MediaItemOptions.toMediaItem, hu]

theorem toMediaItem_some (m : MediaItemOptions) (u : String) (hu : m.uri = some u) :
    m.toMediaItem = Except.ok
      { uri := u,
        clippingConfiguration :=
          m.clippingConfiguration.map ClippingConfigurationOptions.toClippingConfiguration } := by
  simp [MediaItemOptions.toMediaItem, hu, orThrow_some, ok_bind]

theorem compileTransform_decomp (options : TransformOptions) (m : MediaItemOptions)
    (p u : String) (hm : options.mediaItem = some m) (hp : options.outputPath = some p)
    (hu : m.uri = some u) :
    compileTransform options =
      (m.toEditedMediaItem
          { uri := u,
            clippingConfiguration :=
              m.clippingConfiguration.map ClippingConfigurationOptions.toClippingConfiguration } >>=
        fun ed => Except.ok
          { editedMediaItem := ed, transformer := options.toTransformer, outputPath := p }) := by
  rw [compileTransform, hm, hp]
  rw [orThrow_some, ok_bind, orThrow_some, ok_bind, toMediaItem_some m u hu, ok_bind]

theorem toEditedMediaItem_effects_error (m : MediaItemOptions) (item : MediaItem)
    (es : List VideoEffectOptions) (e : String) (hv : m.videoEffects = some es)
    (he : mapOrThrow VideoEffectOptions.toEffect es = Except.error e) :
    m.toEditedMediaItem item = Except.error e := by
  simp only [MediaItemOptions.toEditedMediaItem, hv, he, error_bind]

theorem toEditedMediaItem_audio_error (m : MediaItemOptions) (item : MediaItem)
    (es : List VideoEffectOptions) (el : List Effect) (ps : List AudioProcessorOptions)
    (e : String) (hv : m.videoEffects = some es)
    (hel : mapOrThrow VideoEffectOptions.toEffect es = Except.ok el)
    (ha : m.audioProcessors = some ps)
    (hpe : mapOrThrow AudioProcessorOptions.toAudioProcessor ps = Except.error e) :
    m.toEditedMediaItem item = Except.error e := by
  simp only [MediaItemOptions.toEditedMediaItem, hv, ha, hel, ok_bind, hpe, error_bind]

theorem toEditedMediaItem_audio_error_noeffects (m : MediaItemOptions) (item : MediaItem)
    (ps : List AudioProcessorOptions) (e : String) (hv : m.videoEffects = none)
    (ha : m.audioProcessors = some ps)
    (hpe : mapOrThrow AudioProcessorOptions.toAudioProcessor ps = Except.error e) :
    m.toEditedMediaItem item = Except.error e := by
  simp only [MediaItemOptions.toEditedMediaItem, hv, ha, ok_bind, hpe, error_bind]

/-- Claim C2: the compiled engine chain has exactly one compiled object per
input element, in exactly the input order: the i-th compiled effect is the
compilation of the i-th input effect, and a channel-mixing processor given
matrices [m1..mK] receives exactly those matrices in that order. -/
theorem compiled_chain_preserves_order :
    (∀ (m : MediaItemOptions) (item : MediaItem) (ed : EditedMediaItem)
        (es : List VideoEffectOptions),
      m.videoEffects = some es → m.toEditedMediaItem item = Except.ok ed →
        ed.effects.videoEffects.length = es.length ∧
        ∀ i : Nat, Option.map VideoEffectOptions.toEffect es[i]? =
          Option.map Except.ok ed.effects.videoEffects[i]?) ∧
    (∀ (p : AudioProcessorOptions) (pairs : List (Int × Int)),
      p.type = some AudioProcessorType.channelMixingAudioProcessor →
      p.channelMixingMatrices = some (completeMatrices pairs) →
      p.toAudioProcessor = Except.ok (AudioProcessor.channelMixingAudioProcessor
        (pairs.map fun pr => { inputChannelCount := pr.1, outputChannelCount := pr.2 }))) := by
  constructor
  · intro m item ed es hv hed
    simp only [MediaItemOptions.toEditedMediaItem, hv] at hed
    cases hes : mapOrThrow VideoEffectOptions.toEffect es with
    | error e => simp only [hes, error_bind] at hed; cases hed
    | ok el =>
        simp only [hes, ok_bind] at hed
        cases ha : m.audioProcessors with
        | none =>
            simp only [ha, ok_bind] at hed
            cases hed
            exact mapOrThrow_ok_pointwise _ es el hes
        | some ps =>
            simp only [ha] at hed
            cases hps : mapOrThrow AudioProcessorOptions.toAudioProcessor ps with
            | error e => simp only [hps, error_bind] at hed; cases hed
            | ok al =>
                simp only [hps, ok_bind] at hed
                cases hed
                exact mapOrThrow_ok_pointwise _ es el hes
  · intro p pairs ht hms
    simp [AudioProcessorOptions.toAudioProcessor, ht, orThrow_some, ok_bind, hms,
      putMatrices_complete, List.nil_append]

/-- Claim C2 witness: two scale effects compile in order, and the matrices
(1,2),(2,1) of the spec example arrive in order. -/
theorem compiled_chain_preserves_order_witness :
    (demoCompiledEdited.effects.videoEffects.length =
        [demoScaleEffect, demoScaleEffect].length ∧
      ∀ i : Nat,
        Option.map VideoEffectOptions.toEffect [demoScaleEffect, demoScaleEffect][i]? =
          Option.map Except.ok demoCompiledEdited.effects.videoEffects[i]?) ∧
    demoMixProcessor.toAudioProcessor =
      Except.ok (AudioProcessor.channelMixingAudioProcessor
        [{ inputChannelCount := 1, outputChannelCount := 2 },
         { inputChannelCount := 2, outputChannelCount := 1 }]) :=
  ⟨compiled_chain_preserves_order.1 demoEffectListMedia demoMediaItem demoCompiledEdited
      [demoScaleEffect, demoScaleEffect] rfl rfl,
    compiled_chain_preserves_order.2 demoMixProcessor [(1, 2), (2, 1)] rfl rfl⟩

/-- Claim C4 counterexample: a request missing both source.uri and outputPath
reports outputPath, not source.uri, because executeTransform checks
outputPath before toMediaItem checks uri. -/
theorem validation_order_counterexample :
    compileTransform cexBothMissing = Except.error "outputPath" ∧
    "outputPath" ≠ "mediaItem.uri" :=
  ⟨rfl, by decide⟩

/-- Claim C4 (amended): validation examines required fields in the fixed
order source presence, then outputPath, then source.uri, then the
required fields of each effect in list order; a request missing both source.uri
and outputPath reports outputPath. -/
theorem validation_check_order :
    (∀ options : TransformOptions, options.mediaItem = none →
      compileTransform options = Except.error "mediaItem") ∧
    (∀ (options : TransformOptions) (m : MediaItemOptions),
      options.mediaItem = some m → options.outputPath = none →
        compileTransform options = Except.error "outputPath") ∧
    (∀ (options : TransformOptions) (m : MediaItemOptions) (p : String),
      options.mediaItem = some m → options.outputPath = some p → m.uri = none →
        compileTransform options = Except.error "mediaItem.uri") ∧
    (∀ (options : TransformOptions) (m : MediaItemOptions) (p u : String)
        (epre erest : List VideoEffectOptions) (o : VideoEffectOptions) (e : String),
      options.mediaItem = some m → options.outputPath = some p → m.uri = some u →
      m.videoEffects = some (epre ++ o :: erest) →
      (∀ x ∈ epre, ∃ eff, x.toEffect = Except.ok eff) →
      o.toEffect = Except.error e →
        compileTransform options = Except.error e) := by
  refine ⟨?_, ?_, ?_, ?_⟩
  · exact fun options h => compileTransform_mediaItem_none options h
  · exact fun options m hm hp => compileTransform_outputPath_none options m hm hp
  · exact fun options m p hm hp hu => compileTransform_uri_none options m p hm hp hu
  · intro options m p u epre erest o e hm hp hu hv hok ho
    rw [compileTransform_decomp options m p u hm hp hu,
      toEditedMediaItem_effects_error m _ (epre ++ o :: erest) e hv
        (mapOrThrow_append_error _ e epre hok o erest ho),
      error_bind]

/-- Claim C4 witness: one concrete request per check, including eFD0 at
index 2 behind two complete effects. -/
theorem validation_check_order_witness :
    compileTransform (mkOptions none (some "out.mp4")) = Except.error "mediaItem" ∧
    compileTransform (mkOptions (some (mkMediaItemOptions (some "in.mp4") none none)) none) =
      Except.error "outputPath" ∧
    compileTransform (mkOptions (some (mkMediaItemOptions none none none)) (some "out.mp4")) =
      Except.error "mediaItem.uri" ∧
    compileTransform demoBadFrameDropRequest = Except.error "videoEffects.targetFrameRate" := by
  refine ⟨?_, ?_, ?_, ?_⟩
  · exact validation_check_order.1 (mkOptions none (some "out.mp4")) rfl
  · exact validation_check_order.2.1
      (mkOptions (some (mkMediaItemOptions (some "in.mp4") none none)) none)
      (mkMediaItemOptions (some "in.mp4") none none) rfl rfl
  · exact validation_check_order.2.2.1
      (mkOptions (some (mkMediaItemOptions none none none)) (some "out.mp4"))
      (mkMediaItemOptions none none none) "out.mp4" rfl rfl rfl
  · refine validation_check_order.2.2.2 demoBadFrameDropRequest
      (mkMediaItemOptions (some "in.mp4")
        (some [demoScaleEffect, demoScaleEffect, eFD0]) none)
      "out.mp4" "in.mp4" [demoScaleEffect, demoScaleEffect] [] eFD0
      "videoEffects.targetFrameRate" rfl rfl rfl rfl ?_ rfl
    intro x hx
    simp only [List.mem_cons, List.not_mem_nil, or_false] at hx
    rcases hx with rfl | rfl <;>
      exact ⟨Effect.scaleAndRotateTransformation 1 2 90, rfl⟩

/-- Claim C6 counterexample: an empty (non-absent) outputPath is not a
MissingArgument error: compilation succeeds and the engine is started with
the empty path. -/
theorem empty_outputPath_counterexample :
    compileTransform emptyPathRequest = Except.ok emptyPathPlan ∧
    executeTransformRun emptyPathRequest =
      ([EngineCall.start demoEmptyEdited ""], Except.ok emptyPathPlan) :=
  ⟨rfl, rfl⟩

/-- Claim C6 (amended): absence of the source, of source.uri or of
outputPath fails with a MissingArgument error naming the field, raised
before any engine call is made; emptiness of these strings is not
checked, so an empty string passes through to the engine. -/
theorem absent_fields_error_before_engine :
    (∀ options : TransformOptions, options.mediaItem = none →
      executeTransformRun options = ([], Except.error "mediaItem")) ∧
    (∀ (options : TransformOptions) (m : MediaItemOptions),
      options.mediaItem = some m → options.outputPath = none →
        executeTransformRun options = ([], Except.error "outputPath")) ∧
    (∀ (options : TransformOptions) (m : MediaItemOptions) (p : String),
      options.mediaItem = some m → options.outputPath = some p → m.uri = none →
        executeTransformRun options = ([], Except.error "mediaItem.uri")) := by
  refine ⟨?_, ?_, ?_⟩
  · intro options h
    rw [executeTransformRun, compileTransform_mediaItem_none options h]
  · intro options m hm hp
    rw [executeTransformRun, compileTransform_outputPath_none options m hm hp]
  · intro options m p hm hp hu
    rw [executeTransformRun, compileTransform_uri_none options m p hm hp hu]

/-- Claim C6 witness: the three absence cases on concrete requests. -/
theorem absent_fields_error_before_engine_witness :
    executeTransformRun (mkOptions none (some "out.mp4")) =
      ([], Except.error "mediaItem") ∧
    executeTransformRun (mkOptions (some (mkMediaItemOptions (some "in.mp4") none none)) none) =
      ([], Except.error "outputPath") ∧
    executeTransformRun (mkOptions (some (mkMediaItemOptions none none none)) (some "out.mp4")) =
      ([], Except.error "mediaItem.uri") :=
  ⟨absent_fields_error_before_engine.1 (mkOptions none (some "out.mp4")) rfl,
    absent_fields_error_before_engine.2.1
      (mkOptions (some (mkMediaItemOptions (some "in.mp4") none none)) none)
      (mkMediaItemOptions (some "in.mp4") none none) rfl rfl,
    absent_fields_error_before_engine.2.2
      (mkOptions (some (mkMediaItemOptions none none none)) (some "out.mp4"))
      (mkMediaItemOptions none none none) "out.mp4" rfl rfl rfl⟩

end Media3

namespace Media3

/-- Claim C1: a video-effect or audio-processor variant (including a
channel-mixing matrix) missing one of its required fields makes
compilation raise a MissingArgument error naming that field, and the
engine start operation is never invoked: each variant-field check in
toEffect and toAudioProcessor reports the absent field (given the fields
checked before it are present), such an error propagates through the
effect-list and processor-list compilation of a whole request, and any
compilation error means executeTransform makes no engine call. -/
theorem missing_variant_field_no_start :
    (∀ o : VideoEffectOptions, o.type = some VideoEffectType.presentationForAspectRatio →
      o.aspectRatio = none → o.toEffect = Except.error "videoEffects.aspectRatio") ∧
    (∀ (o : VideoEffectOptions) (a : KFloat),
      o.type = some VideoEffectType.presentationForAspectRatio → o.aspectRatio = some a →
      o.layout = none → o.toEffect = Except.error "videoEffects.layout") ∧
    (∀ o : VideoEffectOptions, o.type = some VideoEffectType.presentationForWidthAndHeight →
      o.width = none → o.toEffect = Except.error "videoEffects.width") ∧
    (∀ (o : VideoEffectOptions) (w : Int),
      o.type = some VideoEffectType.presentationForWidthAndHeight → o.width = some w →
      o.height = none → o.toEffect = Except.error "videoEffects.height") ∧
    (∀ (o : VideoEffectOptions) (w hv : Int),
      o.type = some VideoEffectType.presentationForWidthAndHeight → o.width = some w →
      o.height = some hv → o.layout = none → o.toEffect = Except.error "videoEffects.layout") ∧
    (∀ o : VideoEffectOptions, o.type = some VideoEffectType.presentationForHeight →
      o.height = none → o.toEffect = Except.error "videoEffects.height") ∧
    (∀ o : VideoEffectOptions, o.type = some VideoEffectType.frameDropEffect →
      o.targetFrameRate = none → o.toEffect = Except.error "videoEffects.targetFrameRate") ∧
    (∀ o : VideoEffectOptions, o.type = some VideoEffectType.scaleAndRotateTransformation →
      o.scaleX = none → o.toEffect = Except.error "videoEffects.scaleX") ∧
    (∀ (o : VideoEffectOptions) (sx : KFloat),
      o.type = some VideoEffectType.scaleAndRotateTransformation → o.scaleX = some sx →
      o.scaleY = none → o.toEffect = Except.error "videoEffects.scaleY") ∧
    (∀ (o : VideoEffectOptions) (sx sy : KFloat),
      o.type = some VideoEffectType.scaleAndRotateTransformation → o.scaleX = some sx →
      o.scaleY = some sy → o.rotationDegrees = none →
      o.toEffect = Except.error "videoEffects.rotationDegrees") ∧
    (∀ (p : AudioProcessorOptions) (pairs : List (Int × Int))
        (mtx : ChannelMixingMatrixOptions) (mrest : List ChannelMixingMatrixOptions),
      p.type = some AudioProcessorType.channelMixingAudioProcessor →
      p.channelMixingMatrices = some (completeMatrices pairs ++ mtx :: mrest) →
      mtx.inputChannelCount = none →
      p.toAudioProcessor =
        Except.error "audioProcessors.channelMixingMatrices.inputChannelCount") ∧
    (∀ (p : AudioProcessorOptions) (pairs : List (Int × Int))
        (mtx : ChannelMixingMatrixOptions) (mrest : List ChannelMixingMatrixOptions) (ic : Int),
      p.type = some AudioProcessorType.channelMixingAudioProcessor →
      p.channelMixingMatrices = some (completeMatrices pairs ++ mtx :: mrest) →
      mtx.inputChannelCount = some ic → mtx.outputChannelCount = none →
      p.toAudioProcessor =
        Except.error "audioProcessors.channelMixingMatrices.outputChannelCount") ∧
    (∀ (options : TransformOptions) (e : String), compileTransform options = Except.error e →
      executeTransformRun options = ([], Except.error e)) ∧
    (∀ (options : TransformOptions) (m : MediaItemOptions) (path u : String)
        (epre erest : List VideoEffectOptions) (o : VideoEffectOptions) (e : String),
      options.mediaItem = some m → options.outputPath = some path → m.uri = some u →
      m.videoEffects = some (epre ++ o :: erest) →
      (∀ x ∈ epre, ∃ eff, x.toEffect = Except.ok eff) →
      o.toEffect = Except.error e →
      executeTransformRun options = ([], Except.error e)) ∧
    (∀ (options : TransformOptions) (m : MediaItemOptions) (path u : String)
        (es : List VideoEffectOptions) (el : List Effect)
        (ppre prest : List AudioProcessorOptions) (p : AudioProcessorOptions) (e : String),
      options.mediaItem = some m → options.outputPath = some path → m.uri = some u →
      m.videoEffects = some es → mapOrThrow VideoEffectOptions.toEffect es = Except.ok el →
      m.audioProcessors = some (ppre ++ p :: prest) →
      (∀ x ∈ ppre, ∃ ap, x.toAudioProcessor = Except.ok ap) →
      p.toAudioProcessor = Except.error e →
      executeTransformRun options = ([], Except.error e)) ∧
    (∀ (options : TransformOptions) (m : MediaItemOptions) (path u : String)
        (ppre prest : List AudioProcessorOptions) (p : AudioProcessorOptions) (e : String),
      options.mediaItem = some m → options.outputPath = some path → m.uri = some u →
      m.videoEffects = none →
      m.audioProcessors = some (ppre ++ p :: prest) →
      (∀ x ∈ ppre, ∃ ap, x.toAudioProcessor = Except.ok ap) →
      p.toAudioProcessor = Except.error e →
      executeTransformRun options = ([], Except.error e)) := by
  refine ⟨?_, ?_, ?_, ?_, ?_, ?_, ?_, ?_, ?_, ?_, ?_, ?_, ?_, ?_, ?_, ?_⟩
  · intro o h1 h2
    simp [VideoEffectOptions.toEffect, h1, h2, orThrow_some, orThrow_none, ok_bind, error_bind]
  · intro o a h1 h2 h3
    simp [VideoEffectOptions.toEffect, h1, h2, h3, orThrow_some, orThrow_none, ok_bind,
      error_bind]
  · intro o h1 h2
    simp [VideoEffectOptions.toEffect, h1, h2, orThrow_some, orThrow_none, ok_bind, error_bind]
  · intro o w h1 h2 h3
    simp [VideoEffectOptions.toEffect, h1, h2, h3, orThrow_some, orThrow_none, ok_bind,
      error_bind]
  · intro o w hv h1 h2 h3 h4
    simp [VideoEffectOptions.toEffect, h1, h2, h3, h4, orThrow_some, orThrow_none, ok_bind,
      error_bind]
  · intro o h1 h2
    simp [VideoEffectOptions.toEffect, h1, h2, orThrow_some, orThrow_none, ok_bind, error_bind]
  · intro o h1 h2
    simp [VideoEffectOptions.toEffect, h1, h2, orThrow_some, orThrow_none, ok_bind, error_bind]
  · intro o h1 h2
    simp [VideoEffectOptions.toEffect, h1, h2, orThrow_some, orThrow_none, ok_bind, error_bind]
  · intro o sx h1 h2 h3
    simp [VideoEffectOptions.toEffect, h1, h2, h3, orThrow_some, orThrow_none, ok_bind,
      error_bind]
  · intro o sx sy h1 h2 h3 h4
    simp [VideoEffectOptions.toEffect, h1, h2, h3, h4, orThrow_some, orThrow_none, ok_bind,
      error_bind]
  · intro p pairs mtx mrest ht hms hin
    simp [AudioProcessorOptions.toAudioProcessor, ht, orThrow_some, ok_bind, hms,
      putMatrices_input_error mtx mrest hin, error_bind]
  · intro p pairs mtx mrest ic ht hms hin hout
    simp [AudioProcessorOptions.toAudioProcessor, ht, orThrow_some, ok_bind, hms,
      putMatrices_output_error mtx ic mrest hin hout, error_bind]
  · intro options e h
    rw [executeTransformRun, h]
  · intro options m path u epre erest o e hm hp hu hv hok ho
    have hc : compileTransform options = Except.error e := by
      rw [compileTransform_decomp options m path u hm hp hu,
        toEditedMediaItem_effects_error m _ (epre ++ o :: erest) e hv
          (mapOrThrow_append_error _ e epre hok o erest ho),
        error_bind]
    rw [executeTransformRun, hc]
  · intro options m path u es el ppre prest p e hm hp hu hv hel ha hok hpe
    have hc : compileTransform options = Except.error e := by
      rw [compileTransform_decomp options m path u hm hp hu,
        toEditedMediaItem_audio_error m _ es el (ppre ++ p :: prest) e hv hel ha
          (mapOrThrow_append_error _ e ppre hok p prest hpe),
        error_bind]
    rw [executeTransformRun, hc]
  · intro options m path u ppre prest p e hm hp hu hv ha hok hpe
    have hc : compileTransform options = Except.error e := by
      rw [compileTransform_decomp options m path u hm hp hu,
        toEditedMediaItem_audio_error_noeffects m _ (ppre ++ p :: prest) e hv ha
          (mapOrThrow_append_error _ e ppre hok p prest hpe),
        error_bind]
    rw [executeTransformRun, hc]

end Media3

namespace Media3

/-- Claim C1 witness: one concrete incomplete variant per required-field
check, the two incomplete matrices, and three whole requests (bad effect
at index 2, bad processor at index 1, bad processor with no effect list)
on which no engine call is made. -/
theorem missing_variant_field_no_start_witness :
    VideoEffectOptions.toEffect eAR0 = Except.error "videoEffects.aspectRatio" ∧
    VideoEffectOptions.toEffect eAR1 = Except.error "videoEffects.layout" ∧
    VideoEffectOptions.toEffect eWH0 = Except.error "videoEffects.width" ∧
    VideoEffectOptions.toEffect eWH1 = Except.error "videoEffects.height" ∧
    VideoEffectOptions.toEffect eWH2 = Except.error "videoEffects.layout" ∧
    VideoEffectOptions.toEffect eH0 = Except.error "videoEffects.height" ∧
    VideoEffectOptions.toEffect eFD0 = Except.error "videoEffects.targetFrameRate" ∧
    VideoEffectOptions.toEffect eSR0 = Except.error "videoEffects.scaleX" ∧
    VideoEffectOptions.toEffect eSR1 = Except.error "videoEffects.scaleY" ∧
    VideoEffectOptions.toEffect eSR2 = Except.error "videoEffects.rotationDegrees" ∧
    AudioProcessorOptions.toAudioProcessor pIn0 =
      Except.error "audioProcessors.channelMixingMatrices.inputChannelCount" ∧
    AudioProcessorOptions.toAudioProcessor pOut0 =
      Except.error "audioProcessors.channelMixingMatrices.outputChannelCount" ∧
    executeTransformRun (mkOptions none none) = ([], Except.error "mediaItem") ∧
    executeTransformRun demoBadFrameDropRequest =
      ([], Except.error "videoEffects.targetFrameRate") ∧
    executeTransformRun demoBadAudioRequest =
      ([], Except.error "audioProcessors.channelMixingMatrices.inputChannelCount") ∧
    executeTransformRun demoBadAudioRequestNoEffects =
      ([], Except.error "audioProcessors.channelMixingMatrices.outputChannelCount") := by
  obtain ⟨c1, c2, c3, c4, c5, c6, c7, c8, c9, c10, c11, c12, c13, c14, c15, c16⟩ :=
    missing_variant_field_no_start
  refine ⟨c1 eAR0 rfl rfl, c2 eAR1 1 rfl rfl rfl, c3 eWH0 rfl rfl,
    c4 eWH1 640 rfl rfl rfl, c5 eWH2 640 360 rfl rfl rfl rfl, c6 eH0 rfl rfl,
    c7 eFD0 rfl rfl, c8 eSR0 rfl rfl, c9 eSR1 1 rfl rfl rfl,
    c10 eSR2 1 1 rfl rfl rfl rfl,
    c11 pIn0 [(1, 2)] { inputChannelCount := none, outputChannelCount := some 2 } [] rfl rfl rfl,
    c12 pOut0 [] { inputChannelCount := some 2, outputChannelCount := none } [] 2
      rfl rfl rfl rfl,
    c13 (mkOptions none none) "mediaItem" rfl,
    c14 demoBadFrameDropRequest
      (mkMediaItemOptions (some "in.mp4") (some [demoScaleEffect, demoScaleEffect, eFD0]) none)
      "out.mp4" "in.mp4" [demoScaleEffect, demoScaleEffect] [] eFD0
      "videoEffects.targetFrameRate" rfl rfl rfl rfl ?_ rfl,
    c15 demoBadAudioRequest
      (mkMediaItemOptions (some "in.mp4") (some [demoScaleEffect])
        (some [demoMixProcessor, pIn0]))
      "out.mp4" "in.mp4" [demoScaleEffect] [Effect.scaleAndRotateTransformation 1 2 90]
      [demoMixProcessor] [] pIn0
      "audioProcessors.channelMixingMatrices.inputChannelCount"
      rfl rfl rfl rfl rfl rfl ?_ rfl,
    c16 demoBadAudioRequestNoEffects
      (mkMediaItemOptions (some "in.mp4") none (some [pOut0]))
      "out.mp4" "in.mp4" [] [] pOut0
      "audioProcessors.channelMixingMatrices.outputChannelCount"
      rfl rfl rfl rfl rfl ?_ rfl⟩
  · intro x hx
    simp only [List.mem_cons, List.not_mem_nil, or_false] at hx
    rcases hx with rfl | rfl <;>
      exact ⟨Effect.scaleAndRotateTransformation 1 2 90, rfl⟩
  · intro x hx
    simp only [List.mem_cons, List.not_mem_nil, or_false] at hx
    subst hx
    exact ⟨AudioProcessor.channelMixingAudioProcessor
      [{ inputChannelCount := 1, outputChannelCount := 2 },
       { inputChannelCount := 2, outputChannelCount := 1 }], rfl⟩
  · intro x hx
    exact absurd hx (List.not_mem_nil x)

end Media3

namespace Media3

/-- Claim C5 counterexample: in demoBadFrameDropRequest the missing
targetFrameRate is on the effect at index 2, yet the reported fieldPath is
videoEffects.targetFrameRate with no index component, not
videoEffects[2].targetFrameRate. -/
theorem fieldPath_counterexample :
    compileTransform demoBadFrameDropRequest = Except.error "videoEffects.targetFrameRate" ∧
    "videoEffects.targetFrameRate" ≠ "videoEffects[2].targetFrameRate" :=
  ⟨rfl, by decide⟩

/-- Claim C5 (amended): the MissingArgument fieldPath names the effects list
and the field but not the position of the element: for an offending effect at
any position (any complete prefix epre), the error is the
position-independent path, e.g. videoEffects.targetFrameRate for a missing
targetFrameRate. -/
theorem fieldPath_no_index (options : TransformOptions) (m : MediaItemOptions)
    (p u : String) (epre erest : List VideoEffectOptions) (o : VideoEffectOptions) (e : String)
    (hm : options.mediaItem = some m) (hp : options.outputPath = some p) (hu : m.uri = some u)
    (hv : m.videoEffects = some (epre ++ o :: erest))
    (hok : ∀ x ∈ epre, ∃ eff, x.toEffect = Except.ok eff) :
    (o.toEffect = Except.error e → compileTransform options = Except.error e) ∧
    (o.type = some VideoEffectType.frameDropEffect → o.targetFrameRate = none →
      compileTransform options = Except.error "videoEffects.targetFrameRate") := by
  have key : ∀ e2 : String, o.toEffect = Except.error e2 →
      compileTransform options = Except.error e2 := by
    intro e2 ho
    rw [compileTransform_decomp options m p u hm hp hu,
      toEditedMediaItem_effects_error m _ (epre ++ o :: erest) e2 hv
        (mapOrThrow_append_error _ e2 epre hok o erest ho),
      error_bind]
  refine ⟨key e, fun ht hf => key _ ?_⟩
  simp [VideoEffectOptions.toEffect, ht, hf, orThrow_some, orThrow_none, ok_bind, error_bind]

/-- Claim C5 witness: the offending frame-drop effect sits behind two
complete effects, and the reported path carries no index. -/
theorem fieldPath_no_index_witness :
    compileTransform demoBadFrameDropRequest =
      Except.error "videoEffects.targetFrameRate" := by
  refine (fieldPath_no_index demoBadFrameDropRequest
    (mkMediaItemOptions (some "in.mp4") (some [demoScaleEffect, demoScaleEffect, eFD0]) none)
    "out.mp4" "in.mp4" [demoScaleEffect, demoScaleEffect] [] eFD0
    "videoEffects.targetFrameRate" rfl rfl rfl rfl ?_).2 rfl rfl
  intro x hx
  simp only [List.mem_cons, List.not_mem_nil, or_false] at hx
  rcases hx with rfl | rfl <;>
    exact ⟨Effect.scaleAndRotateTransformation 1 2 90, rfl⟩

end Media3

namespace TS

theorem isPrefixOf_self_append (l t : List Char) : List.isPrefixOf l (l ++ t) = true := by
  induction l with
  | nil => simp [List.isPrefixOf]
  | cons c cs ih => simp [List.isPrefixOf, ih]

theorem strip_prepend (rest : String) :
    stripOutputPathUriScheme ("file://" ++ rest) = rest := by
  rw [stripOutputPathUriScheme, String.data_append, if_pos, List.drop_append_of_le_length]
  · show String.mk (List.drop 7 "file://".data ++ rest.data) = rest
    rfl
  · decide
  · exact isPrefixOf_self_append "file://".data rest.data

/-- Claim C10: the TypeScript transform forwards to the native module the
input options with only outputPath changed: a single leading file:// prefix
is removed when present (and only one, even if the remainder starts with
file:// again), the path is unchanged when no such prefix is present, and
mediaItem, videoMimeType, audioMimeType and encoderFactory are forwarded
untouched. -/
theorem transform_strips_scheme (o : TransformerOptions) (rest p : String)
    (hnp : List.isPrefixOf "file://".data p.data = false) :
    (transform o).mediaItem = o.mediaItem ∧
    (transform o).videoMimeType = o.videoMimeType ∧
    (transform o).audioMimeType = o.audioMimeType ∧
    (transform o).encoderFactory = o.encoderFactory ∧
    (transform o).outputPath = stripOutputPathUriScheme o.outputPath ∧
    stripOutputPathUriScheme ("file://" ++ rest) = rest ∧
    stripOutputPathUriScheme ("file://" ++ ("file://" ++ rest)) = "file://" ++ rest ∧
    stripOutputPathUriScheme p = p := by
  refine ⟨rfl, rfl, rfl, rfl, rfl, strip_prepend rest, strip_prepend ("file://" ++ rest), ?_⟩
  rw [stripOutputPathUriScheme, if_neg]
  simp [hnp]

/-- Claim C10 witness: concrete options whose outputPath carries the file
scheme, and a path without it. -/
theorem transform_strips_scheme_witness :
    (transform Media3.demoTSOptions).mediaItem = Media3.demoTSOptions.mediaItem ∧
    (transform Media3.demoTSOptions).outputPath = "/out.mp4" ∧
    stripOutputPathUriScheme ("file://" ++ "/data/out.mp4") = "/data/out.mp4" ∧
    stripOutputPathUriScheme "plain.mp4" = "plain.mp4" := by
  have h := transform_strips_scheme Media3.demoTSOptions "/data/out.mp4" "plain.mp4" rfl
  exact ⟨h.1, h.2.2.2.2.1, h.2.2.2.2.2.1, h.2.2.2.2.2.2.2⟩

end TS
